import Mathlib

/-!
# Verification of the DeusConsole core (deus-console.h)

Shallow embedding of the console manager from `src/deus-console.h`:
the token classifier (`isNumericStr`), the command tokenizer
(`parseCommand`), the variable/method/help registries
(`registerCVar`, `registerMethod`, `getHelp`) and the dispatcher
(`runCommandAs`).

Modelling conventions:
* C `char` buffers become Lean `String`s; `strlen` is `String.length`
  (inputs of interest are ASCII).
* Thrown `DeusConsoleException`s become `DeusError.exception msg`;
  a failing C `assert` (which aborts the process) becomes
  `DeusError.assertionFailure msg`.
* The manager's mutable state is threaded explicitly; a function that
  can throw returns the state at the point of the throw alongside the
  error, so "state unchanged on error" is a provable statement.
* `std::unordered_map` is modelled as an association list: `find` is
  `List.lookup`, `operator[] =` is `mapAssign` (replace-or-append).
* A console variable's closures capture external storage by reference;
  in the model the storage lives in the entry's `value` field and the
  write closures are functions from the written token text to the new
  stored value.  Invocations of the optional `onUpdate` hook are
  recorded in an event list of the run result.
-/

-- EDeusCVarFlags (deus-console.h lines 34-39)
def DEUS_CVAR_DEFAULT : Nat := 0
def DEUS_CVAR_DEVELOPER : Nat := 2
def DEUS_CVAR_READONLY : Nat := 4
def DEUS_CVAR_UNREGISTERED : Nat := 8

-- EDeusVarTypeFlags (deus-console.h lines 42-48)
def DEUS_VARTYPE_STRING : Nat := 0
def DEUS_VARTYPE_INT : Nat := 1
def DEUS_VARTYPE_DEC : Nat := 2
def DEUS_VARTYPE_BOOL_FALSE : Nat := 3
def DEUS_VARTYPE_BOOL_TRUE : Nat := 4

/-- A parsed command token (`DeusCommandToken`, lines 51-62):
`str` is the token text, `type` one of the `DEUS_VARTYPE_*` values. -/
structure DeusCommandToken where
  str : String
  type : Nat
deriving Repr, DecidableEq

/-- The parsed command (`DeusCommandType`, lines 65-70). -/
structure DeusCommandType where
  target : String
  argc : Nat
  tokens : List DeusCommandToken
  returnStr : String
deriving Repr, DecidableEq

/-- A freshly default-constructed `DeusCommandType` (target empty,
`argc = 0`, no tokens), as built by `runCommandAs(const char*)`. -/
def freshCommand : DeusCommandType :=
  { target := "", argc := 0, tokens := [], returnStr := "" }

/-- Errors: a thrown `DeusConsoleException` carrying its message, or a
failing C `assert` (which aborts the process rather than throwing). -/
inductive DeusError where
  | exception (msg : String)
  | assertionFailure (msg : String)
deriving Repr, DecidableEq

/-- Loop body of `isNumericStr` (lines 97-109), tracking `hasPeriod`. -/
def isNumericStrAux : List Char → Bool → Nat
  | [], hasPeriod => if hasPeriod then 2 else 1
  | c :: rest, hasPeriod =>
    if c == '.' then
      if hasPeriod then 0 else isNumericStrAux rest true
    else if !c.isDigit then 0
    else isNumericStrAux rest hasPeriod

/-- Model of `isNumericStr` (lines 92-111): 0 = not numeric, 1 = integer,
2 = decimal (exactly one `.`).  The empty string is never numeric. -/
def isNumericStr (s : String) : Nat :=
  if s.length == 0 then 0
  else isNumericStrAux s.data false

/-- C `isspace` for the default locale. -/
def isCSpace (c : Char) : Bool :=
  c == ' ' || c == '\t' || c == '\n' || c == '\x0b' || c == '\x0c' || c == '\r'

/-- Model of `trimStr` (lines 115-130).  Note the source advances a *local*
pointer past leading whitespace, so the buffer keeps its leading
whitespace; only trailing whitespace is actually cut (and an
all-whitespace buffer is returned unchanged by the early `return`). -/
def trimStr (s : String) : String :=
  let rest := s.data.dropWhile isCSpace
  if rest.isEmpty then s
  else String.mk (s.data.takeWhile isCSpace ++ (rest.reverse.dropWhile isCSpace).reverse)

/-- The pieces produced by `strtok(command, " ")`: split on runs of
`' '`, producing no empty pieces. -/
def strtokPieces (s : String) : List String :=
  ((s.data.splitOn ' ').filter (fun p => !p.isEmpty)).map String.mk

/-- Reading `cmdToken[0]` on a NUL-terminated buffer (reads `'\0'` when
empty; `strtok` never yields an empty piece). -/
def strFront (s : String) : Char := s.data.headD (Char.ofNat 0)

/-- Reading `cmdToken[tokenLength - 1]`, the last character of the piece. -/
def strBack (s : String) : Char := s.data.getLastD (Char.ofNat 0)

/-- Model of `strcpy(dst, &cmdToken[1])`: the piece minus its first character. -/
def strDropFront (s : String) : String := String.mk (s.data.drop 1)

/-- Model of `str[strlen(str) - 1] = 0`: the buffer minus its last character. -/
def strPopBack (s : String) : String := String.mk (s.data.dropLast)

/-- Mutable locals of the `parseCommand` tokenizer loop
(lines 312-315): the quoting flag, the accumulating token, the command
being filled in, and the first-token marker. -/
structure ParseState where
  isStringParsing : Bool
  commandToken : DeusCommandToken
  commandResult : DeusCommandType
  isFirstToken : Bool

/-- One iteration of the `parseCommand` loop body (lines 316-366) on
the piece `cmdToken` delivered by `strtok`. -/
def parseStep (st : ParseState) (cmdToken : String) : ParseState :=
  if st.isFirstToken then
    { st with
      commandResult := { st.commandResult with target := cmdToken }
      isFirstToken := false }
  else
    let isBoolPositive := !st.isStringParsing && cmdToken == "true"
    let isBoolNegative := !st.isStringParsing && cmdToken == "false"
    let next : Bool × DeusCommandToken :=
      if isBoolPositive then
        (st.isStringParsing, { str := "1", type := DEUS_VARTYPE_BOOL_TRUE })
      else if isBoolNegative then
        (st.isStringParsing, { str := "0", type := DEUS_VARTYPE_BOOL_FALSE })
      else
        let isStringStart := !st.isStringParsing &&
          (strFront cmdToken == '\'' || strFront cmdToken == '"')
        let isStringEnd := st.isStringParsing &&
          (strBack cmdToken == '\'' || strBack cmdToken == '"')
        let tokenNumericalType :=
          if !st.isStringParsing && !isStringStart && !isStringEnd then
            isNumericStr cmdToken
          else 0
        if tokenNumericalType != 0 then
          (st.isStringParsing, { str := cmdToken, type := tokenNumericalType })
        else if isStringStart then
          (true, { str := strDropFront cmdToken ++ " ", type := tokenNumericalType })
        else if isStringEnd then
          (false, { str := strPopBack (st.commandToken.str ++ cmdToken),
                    type := tokenNumericalType })
        else if st.isStringParsing then
          (st.isStringParsing,
           { str := st.commandToken.str ++ cmdToken ++ " ", type := tokenNumericalType })
        else
          (st.isStringParsing, { str := cmdToken, type := tokenNumericalType })
    let isStringParsing := next.1
    let commandToken := next.2
    let commandResult :=
      if !isStringParsing then
        { st.commandResult with tokens := st.commandResult.tokens ++ [commandToken] }
      else st.commandResult
    { isStringParsing := isStringParsing
      commandToken := commandToken
      commandResult := commandResult
      isFirstToken := st.isFirstToken }

/-- The `while (cmdToken != NULL)` loop of `parseCommand`.  After each
piece the source checks `commandResult.argc >= 16` and breaks — note
that `argc` is never written inside the loop (it is assigned from
`tokens.size()` only after the loop), so this test reads the stale
field of the command passed in. -/
def parseLoop : List String → ParseState → ParseState
  | [], st => st
  | piece :: rest, st =>
    let st' := parseStep st piece
    if st'.commandResult.argc ≥ 16 then st'
    else parseLoop rest st'

/-- Model of `parseCommand` (lines 298-381): length check, trim, tokenize.
The end-of-loop `assert(isStringParsing == false)` (line 378) is
modelled as `DeusError.assertionFailure`. -/
def parseCommand (inputCmd : String) (commandResult : DeusCommandType) :
    Except DeusError DeusCommandType :=
  if inputCmd.length ≥ 256 then
    .error (.exception "Input command buffer is too large, cannot parse.")
  else
    let command := trimStr inputCmd
    let st0 : ParseState :=
      { isStringParsing := false
        commandToken := { str := "", type := 0 }
        commandResult := commandResult
        isFirstToken := true }
    let st := parseLoop (strtokPieces command) st0
    if st.isStringParsing then
      .error (.assertionFailure "isStringParsing == false")
    else
      .ok { st.commandResult with argc := st.commandResult.tokens.length }

/-- A registered console variable (`DeusConsoleVariable`, lines 81-89)
over storage of type `V`.  The write closures are `none` when unbound
(`registerCVar` skips `bindWriteMethods` for `ReadOnly` variables);
each takes the token text handed to it by the dispatcher and yields
the new stored value.  `read` is modelled by the `value` field itself;
`onUpdate : Bool` records whether an update hook is bound (its
invocations are reported in the run result's event list). -/
structure DeusConsoleVariable (V : Type) where
  write : Option (String → V)
  writeIntFromBuffer : Option (String → V)
  writeDecimalFromBuffer : Option (String → V)
  onUpdate : Bool
  toString : V → String
  flags : Nat
  value : V

/-- The three closures installed by a `bindWriteMethods` overload
(lines 259-286), as functions of the incoming token text. -/
structure DeusWriteMethods (V : Type) where
  write : String → V
  writeIntFromBuffer : String → V
  writeDecimalFromBuffer : String → V

/-- The non-arithmetic `bindWriteMethods` overload (lines 275-286)
instantiated at `T = std::string`: the generic write assigns the
string passed by the dispatcher, and the int/decimal buffer writes
construct `T(data)` from the token text. -/
def bindWriteMethodsStdString : DeusWriteMethods String :=
  { write := fun s => s
    writeIntFromBuffer := fun s => s
    writeDecimalFromBuffer := fun s => s }

/-- Model of `TConsoleTypeHelper<std::string>::toString` (lines 151-156). -/
def tconsoleToStringStdString : String → String := fun s => s

/-- Model of `IDeusConsoleManager` (lines 160-482) with all variables stored at
type `V`.  The three `std::unordered_map`s are association lists. -/
structure IDeusConsoleManager (V : Type) where
  variableTable : List (String × DeusConsoleVariable V)
  methodTable : List (String × (DeusCommandType → DeusCommandType))
  helpTable : List (String × String)

/-- An empty manager over `String`-typed variables. -/
def emptyManagerString : IDeusConsoleManager String :=
  { variableTable := [], methodTable := [], helpTable := [] }

/-- Model of `unordered_map::operator[] =`: replace the first binding of `key`,
or append a new binding. -/
def mapAssign {α : Type} : List (String × α) → String → α → List (String × α)
  | [], key, val => [(key, val)]
  | (k, v) :: rest, key, val =>
    if k == key then (k, val) :: rest
    else (k, v) :: mapAssign rest key val

/-- Model of `variableExists` (lines 213-215). -/
def variableExists {V : Type} (m : IDeusConsoleManager V) (name : String) : Bool :=
  (List.lookup name m.variableTable).isSome

/-- Model of `methodExists` (lines 218-220). -/
def methodExists {V : Type} (m : IDeusConsoleManager V) (name : String) : Bool :=
  (List.lookup name m.methodTable).isSome

/-- Model of `registerMethod` (lines 223-228): insert into the method and help
tables only when the name is not yet in the method table. -/
def registerMethod {V : Type} (m : IDeusConsoleManager V) (name : String)
    (func : DeusCommandType → DeusCommandType) (description : String) :
    IDeusConsoleManager V :=
  if (List.lookup name m.methodTable).isNone then
    { m with
      methodTable := mapAssign m.methodTable name func
      helpTable := mapAssign m.helpTable name description }
  else m

/-- Model of `registerCVar` (lines 232-256).  `toStringHelper` stands for the
`TConsoleTypeHelper<T>::toString` instantiation and `writeMethods` for
the `bindWriteMethods` overload chosen by `T`; the write closures are
bound only when `ReadOnly` is not set. -/
def registerCVar {V : Type} (m : IDeusConsoleManager V) (name : String) (value : V)
    (description : String) (flags : Nat) (onUpdate : Bool)
    (toStringHelper : V → String) (writeMethods : DeusWriteMethods V) :
    IDeusConsoleManager V :=
  if flags &&& DEUS_CVAR_UNREGISTERED != 0 then m
  else if (List.lookup name m.variableTable).isNone then
    let var : DeusConsoleVariable V :=
      { flags := flags
        value := value
        onUpdate := onUpdate
        toString := toStringHelper
        write :=
          if flags &&& DEUS_CVAR_READONLY != 0 then none
          else some writeMethods.write
        writeIntFromBuffer :=
          if flags &&& DEUS_CVAR_READONLY != 0 then none
          else some writeMethods.writeIntFromBuffer
        writeDecimalFromBuffer :=
          if flags &&& DEUS_CVAR_READONLY != 0 then none
          else some writeMethods.writeDecimalFromBuffer }
    { m with
      variableTable := mapAssign m.variableTable name var
      helpTable := mapAssign m.helpTable name description }
  else m

/-- Model of `getHelp` (lines 204-210).  When the key is absent the source
executes `return nullptr;` with return type `std::string`, i.e. it
constructs a `std::string` from a null `char*` — undefined behavior
(libstdc++ throws `std::logic_error`, libc++ crashes).  That path is
modelled as `none`; a found key yields `some` of its description. -/
def getHelp {V : Type} (m : IDeusConsoleManager V) (key : String) : Option String :=
  match List.lookup key m.helpTable with
  | some v => some v
  | none => none

/-- Write the new value through into the storage captured by the
variable's closures: update the entry's `value` field in place. -/
def setVarValue {V : Type} :
    List (String × DeusConsoleVariable V) → String → V →
    List (String × DeusConsoleVariable V)
  | [], _, _ => []
  | (k, v) :: rest, name, newVal =>
    if k == name then (k, { v with value := newVal }) :: rest
    else (k, v) :: setVarValue rest name newVal

/-- Successful outcome of `runCommandAs<T>`: the typed return value
(`none` models the default-constructed `T{}` of the method path), the
command after dispatch (its `returnStr` possibly set), and the values
passed to `onUpdate` hooks during the call. -/
structure DeusRunOk (V : Type) where
  value : Option V
  command : DeusCommandType
  hookCalls : List V

/-- Dispatch of an already-parsed command: the body of `runCommandAs`
after the `parseCommand` call (lines 404-465).  The pair's second
component is the manager state when the call ends (also on a throw —
every throw in the source happens before any write). -/
def dispatchCommand {V : Type} (m : IDeusConsoleManager V)
    (commandResult : DeusCommandType) :
    Except DeusError (DeusRunOk V) × IDeusConsoleManager V :=
  let cmdTarget := commandResult.target
  let methodKnown := methodExists m cmdTarget
  let runMethod : Unit → Except DeusError (DeusRunOk V) × IDeusConsoleManager V :=
    fun _ =>
      match List.lookup cmdTarget m.methodTable with
      | some func =>
        (.ok { value := none, command := func commandResult, hookCalls := [] }, m)
      | none =>
        (.error (.exception ("Console method does not exist: " ++ cmdTarget)), m)
  match List.lookup cmdTarget m.variableTable with
  | some var =>
    if commandResult.argc == 0 then
      -- Zero tokens is a read op
      (.ok { value := some var.value
             command := { commandResult with returnStr := var.toString var.value }
             hookCalls := [] }, m)
    else if commandResult.argc == 1 then
      -- One token is a write op; disallow writing to constants
      if var.flags &&& DEUS_CVAR_READONLY != 0 then
        (.error (.exception "Cannot write to a constant variable"), m)
      else
        match commandResult.tokens with
        | [] =>
          -- unreachable: parseCommand sets argc = tokens.length, so
          -- argc == 1 guarantees a first token; `tokens[0]` on an
          -- empty vector would be undefined behavior
          (.error (.assertionFailure "tokens[0] in range"), m)
        | token :: _ =>
          let tokenInput := token.str
          let tokenType := token.type
          let applyWriter : Option (String → V) → Except DeusError V := fun w =>
            match w with
            | some f => .ok (f tokenInput)
            | none => .error (.exception "bad_function_call")
          let written : Except DeusError V :=
            if tokenType == DEUS_VARTYPE_STRING then
              applyWriter var.write
            else if tokenType == DEUS_VARTYPE_INT || tokenType == DEUS_VARTYPE_DEC then
              if tokenType == DEUS_VARTYPE_INT then
                applyWriter var.writeIntFromBuffer
              else
                applyWriter var.writeDecimalFromBuffer
            else if tokenType == DEUS_VARTYPE_BOOL_FALSE then
              applyWriter var.writeIntFromBuffer
            else if tokenType == DEUS_VARTYPE_BOOL_TRUE then
              applyWriter var.writeIntFromBuffer
            else
              .error (.assertionFailure "false")
          match written with
          | .error e => (.error e, m)
          | .ok newVal =>
            let hookCalls := if var.onUpdate then [newVal] else []
            (.ok { value := some newVal
                   command := commandResult
                   hookCalls := hookCalls },
             { m with variableTable := setVarValue m.variableTable cmdTarget newVal })
    else if !methodKnown then
      -- More than 1 token is a no-op on a variable
      (.error (.exception "Too many arguments"), m)
    else
      runMethod ()
  | none =>
    if methodKnown then runMethod ()
    else (.error (.exception ("No variable or method found: " ++ cmdTarget)), m)

/-- Model of `runCommandAs<T>(const char*)` (lines 470-474, 401-466): parse
with a fresh command, then dispatch. -/
def runCommandAs {V : Type} (m : IDeusConsoleManager V) (command : String) :
    Except DeusError (DeusRunOk V) × IDeusConsoleManager V :=
  match parseCommand command freshCommand with
  | .error e => (.error e, m)
  | .ok commandResult => dispatchCommand m commandResult

/-- Model of `runCommand` (lines 385-397): run and extract the return string. -/
def runCommand {V : Type} (m : IDeusConsoleManager V) (command : String) :
    Except DeusError String × IDeusConsoleManager V :=
  match runCommandAs m command with
  | (.ok r, m') => (.ok r.command.returnStr, m')
  | (.error e, m') => (.error e, m')

/-- A manager with one `ReadOnly` `std::string` variable `name` holding
`"a"`, as in test.cpp's constant-variable scenario. -/
def mgrReadOnly : IDeusConsoleManager String :=
  registerCVar emptyManagerString "name" "a" "A read-only name" DEUS_CVAR_READONLY false
    tconsoleToStringStdString bindWriteMethodsStdString

/-- The variable entry that `mgrReadOnly` stores under `name`:
`ReadOnly` flag set, no write closures bound. -/
def varReadOnly : DeusConsoleVariable String :=
  { flags := DEUS_CVAR_READONLY
    value := "a"
    onUpdate := false
    toString := tconsoleToStringStdString
    write := none
    writeIntFromBuffer := none
    writeDecimalFromBuffer := none }

/-- A manager with one writable `std::string` variable `x` holding
`"old"`, with an update hook bound. -/
def mgrWritable : IDeusConsoleManager String :=
  registerCVar emptyManagerString "x" "old" "A writable string" DEUS_CVAR_DEFAULT true
    tconsoleToStringStdString bindWriteMethodsStdString

/-- The variable entry that `mgrWritable` stores under `x`. -/
def varWritable : DeusConsoleVariable String :=
  { flags := DEUS_CVAR_DEFAULT
    value := "old"
    onUpdate := true
    toString := tconsoleToStringStdString
    write := some bindWriteMethodsStdString.write
    writeIntFromBuffer := some bindWriteMethodsStdString.writeIntFromBuffer
    writeDecimalFromBuffer := some bindWriteMethodsStdString.writeDecimalFromBuffer }

/-- A method body used in examples: sets the command's return string. -/
def methodReturned : DeusCommandType → DeusCommandType :=
  fun cmd => { cmd with returnStr := "returned" }

/-- A manager where the name `x` is both a writable variable and a
method (the shadowing situation of dispatcher rule 3d). -/
def mgrVarAndMethod : IDeusConsoleManager String :=
  registerMethod mgrWritable "x" methodReturned "Also a method"

/-- An idle (not quoting, past the target) tokenizer state over a
fresh command, used to exercise single classification steps. -/
def idleParseState : ParseState :=
  { isStringParsing := false
    commandToken := { str := "", type := 0 }
    commandResult := freshCommand
    isFirstToken := false }

/-- A tokenizer state in the middle of a quoted run (after a piece
such as `'hello` opened a quote), used to exercise the in-quote
classification steps. -/
def quotingParseState : ParseState :=
  { isStringParsing := true
    commandToken := { str := "hello ", type := 0 }
    commandResult := freshCommand
    isFirstToken := false }

/-- A scan over an all-digit suffix keeps the `hasPeriod` flag and
reaches the end of the loop: result 2 with a period seen, 1 without. -/
theorem isNumericStrAux_all_digits (l : List Char) (h : ∀ c ∈ l, c.isDigit) :
    ∀ hp : Bool, isNumericStrAux l hp = if hp then 2 else 1 := by
  induction l with
  | nil => intro hp; rfl
  | cons c rest ih =>
    intro hp
    have hc : c.isDigit := h c (List.mem_cons_self c rest)
    have hdot : (c == '.') = false := by
      cases heq : c == '.' with
      | true =>
        rw [beq_iff_eq] at heq
        subst heq
        simp at hc
      | false => rfl
    simp only [isNumericStrAux, hdot, hc, Bool.not_true, Bool.false_eq_true, if_false,
      Bool.not_eq_true']
    exact ih (fun d hd => h d (List.mem_cons_of_mem c hd)) hp

/-- Once a period has been seen, meeting another period anywhere in the
rest of the word makes the classifier reject (return 0). -/
theorem isNumericStrAux_dot_mem (l : List Char) (h : '.' ∈ l) :
    isNumericStrAux l true = 0 := by
  induction l with
  | nil => cases h
  | cons c rest ih =>
    by_cases hc : c = '.'
    · subst hc
      simp [isNumericStrAux]
    · have hdot : (c == '.') = false := by
        cases heq : c == '.' with
        | true => rw [beq_iff_eq] at heq; exact absurd heq hc
        | false => rfl
      have hmem : '.' ∈ rest := by
        cases h with
        | head => exact absurd rfl hc
        | tail _ h' => exact h'
      by_cases hd : c.isDigit
      · simp [isNumericStrAux, hdot, hd, ih hmem]
      · simp [isNumericStrAux, hdot, hd]

/-- Two or more periods always make the classifier reject. -/
theorem isNumericStrAux_two_dots (l : List Char) (h : 2 ≤ l.count '.') :
    ∀ hp : Bool, isNumericStrAux l hp = 0 := by
  induction l with
  | nil => intro hp; simp [List.count_nil] at h
  | cons c rest ih =>
    intro hp
    by_cases hc : c = '.'
    · subst hc
      have hmem : '.' ∈ rest := by
        rw [List.count_cons_self] at h
        exact List.count_pos_iff.mp (by omega)
      cases hp with
      | true => simp [isNumericStrAux]
      | false => simp [isNumericStrAux, isNumericStrAux_dot_mem rest hmem]
    · have hdot : (c == '.') = false := by
        cases heq : c == '.' with
        | true => rw [beq_iff_eq] at heq; exact absurd heq hc
        | false => rfl
      have hrest : 2 ≤ rest.count '.' := by
        rw [List.count_cons_of_ne (Ne.symm hc)] at h
        exact h
      by_cases hd : c.isDigit
      · simp [isNumericStrAux, hdot, hd, ih hrest]
      · simp [isNumericStrAux, hdot, hd]

/-- A character that is neither a digit nor a period makes the
classifier reject, wherever it occurs. -/
theorem isNumericStrAux_bad_char (l : List Char) (c : Char) (hc : c ∈ l)
    (hd : ¬c.isDigit) (hdot : c ≠ '.') :
    ∀ hp : Bool, isNumericStrAux l hp = 0 := by
  induction l with
  | nil => cases hc
  | cons a rest ih =>
    intro hp
    by_cases ha : a = c
    · subst ha
      have hadot : (a == '.') = false := by
        cases heq : a == '.' with
        | true => rw [beq_iff_eq] at heq; exact absurd heq hdot
        | false => rfl
      simp [isNumericStrAux, hadot, hd]
    · have hmem : c ∈ rest := by
        cases hc with
        | head => exact absurd rfl ha
        | tail _ h' => exact h'
      by_cases hadot : a = '.'
      · subst hadot
        cases hp with
        | true => simp [isNumericStrAux]
        | false => simp [isNumericStrAux, ih hmem]
      · have hane : (a == '.') = false := by
          cases heq : a == '.' with
          | true => rw [beq_iff_eq] at heq; exact absurd heq hadot
          | false => rfl
        by_cases had : a.isDigit
        · simp [isNumericStrAux, hane, had, ih hmem]
        · simp [isNumericStrAux, hane, had]

/-- A word over digits and periods with exactly one period scans to 2
(decimal). -/
theorem isNumericStrAux_one_dot (l : List Char)
    (hsub : ∀ c ∈ l, c.isDigit ∨ c = '.') (hcount : l.count '.' = 1) :
    isNumericStrAux l false = 2 := by
  induction l with
  | nil => simp [List.count_nil] at hcount
  | cons c rest ih =>
    by_cases hc : c = '.'
    · subst hc
      have hrest : rest.count '.' = 0 := by
        rw [List.count_cons_self] at hcount
        omega
      have hdigits : ∀ d ∈ rest, d.isDigit := by
        intro d hdmem
        rcases hsub d (List.mem_cons_of_mem _ hdmem) with h | h
        · exact h
        · subst h
          rw [List.count_eq_zero] at hrest
          exact absurd hdmem hrest
      simp [isNumericStrAux, isNumericStrAux_all_digits rest hdigits]
    · have hdot : (c == '.') = false := by
        cases heq : c == '.' with
        | true => rw [beq_iff_eq] at heq; exact absurd heq hc
        | false => rfl
      have hd : c.isDigit := by
        rcases hsub c (List.mem_cons_self c rest) with h | h
        · exact h
        · exact absurd h hc
      have hrest : rest.count '.' = 1 := by
        rw [List.count_cons_of_ne (Ne.symm hc)] at hcount
        exact hcount
      simp [isNumericStrAux, hdot, hd,
        ih (fun d hdm => hsub d (List.mem_cons_of_mem _ hdm)) hrest]

/-- The classifier scan only ever yields 0, 1 or 2. -/
theorem isNumericStrAux_le_two (l : List Char) :
    ∀ hp : Bool, isNumericStrAux l hp ≤ 2 := by
  induction l with
  | nil => intro hp; cases hp <;> simp [isNumericStrAux]
  | cons c rest ih =>
    intro hp
    simp only [isNumericStrAux]
    split
    · split
      · omega
      · exact ih true
    · split
      · omega
      · exact ih hp

/-- On a nonempty word the length guard of `isNumericStr` passes and
the scan runs with `hasPeriod = false`. -/
theorem isNumericStr_eq_aux (w : String) (h : w.data ≠ []) :
    isNumericStr w = isNumericStrAux w.data false := by
  cases w with
  | mk data =>
    simp only [isNumericStr, String.length]
    have : (data.length == 0) = false := by
      simp only [beq_eq_false_iff_ne, ne_eq, List.length_eq_zero]
      exact h
    rw [this]
    simp

/-- C3: the token classifier assigns each non-target word exactly one
of the five kinds: the exact literals `true`/`false` outside an open
quote become BoolTrue/BoolFalse with normalized text `"1"`/`"0"`; a
word of all digits becomes Integer; a word of digits with exactly one
`.` becomes Decimal; a word with two or more `.` characters, any other
non-digit character, or the empty word is not numeric and falls through
to String (the generic step lemma shows an idle-state word is pushed
with kind `isNumericStr w`, and `isNumericStr` only yields 0, 1, 2). -/
theorem token_classifier_five_kinds :
    (∀ st : ParseState, st.isStringParsing = false → st.isFirstToken = false →
      (parseStep st "true").commandResult.tokens =
        st.commandResult.tokens ++ [{ str := "1", type := DEUS_VARTYPE_BOOL_TRUE }]) ∧
    (∀ st : ParseState, st.isStringParsing = false → st.isFirstToken = false →
      (parseStep st "false").commandResult.tokens =
        st.commandResult.tokens ++ [{ str := "0", type := DEUS_VARTYPE_BOOL_FALSE }]) ∧
    (∀ (st : ParseState) (w : String), st.isStringParsing = false → st.isFirstToken = false →
      w ≠ "true" → w ≠ "false" → strFront w ≠ '\'' → strFront w ≠ '"' →
      (parseStep st w).commandResult.tokens =
        st.commandResult.tokens ++ [{ str := w, type := isNumericStr w }]) ∧
    (∀ w : String, w.data ≠ [] → (∀ c ∈ w.data, c.isDigit) →
      isNumericStr w = DEUS_VARTYPE_INT) ∧
    (∀ w : String, (∀ c ∈ w.data, c.isDigit ∨ c = '.') → w.data.count '.' = 1 →
      isNumericStr w = DEUS_VARTYPE_DEC) ∧
    (∀ w : String, 2 ≤ w.data.count '.' → isNumericStr w = DEUS_VARTYPE_STRING) ∧
    (∀ (w : String) (c : Char), c ∈ w.data → ¬c.isDigit → c ≠ '.' →
      isNumericStr w = DEUS_VARTYPE_STRING) ∧
    (isNumericStr "" = DEUS_VARTYPE_STRING) ∧
    (∀ w : String, isNumericStr w ≤ 2) ∧
    (∀ st : ParseState, st.isStringParsing = true → st.isFirstToken = false →
      (parseStep st "true").commandResult.tokens = st.commandResult.tokens ∧
      (parseStep st "true").commandToken.str = st.commandToken.str ++ "true" ++ " ") := by
  refine ⟨?_, ?_, ?_, ?_, ?_, ?_, ?_, ?_, ?_, ?_⟩
  · intro st hq hf
    simp [parseStep, hq, hf]
  · intro st hq hf
    simp [parseStep, hq, hf]
  · intro st w hq hf ht hfa h1 h2
    by_cases hn : isNumericStr w = 0
    · simp [parseStep, hq, hf, ht, hfa, h1, h2, hn]
    · simp [parseStep, hq, hf, ht, hfa, h1, h2, hn]
  · intro w hne hdig
    rw [isNumericStr_eq_aux w hne, isNumericStrAux_all_digits w.data hdig false]
    decide
  · intro w hsub hcount
    have hmem : '.' ∈ w.data := List.count_pos_iff.mp (by omega)
    have hne : w.data ≠ [] := List.ne_nil_of_mem hmem
    rw [isNumericStr_eq_aux w hne, isNumericStrAux_one_dot w.data hsub hcount]
    decide
  · intro w hcount
    have hmem : '.' ∈ w.data := List.count_pos_iff.mp (by omega)
    have hne : w.data ≠ [] := List.ne_nil_of_mem hmem
    rw [isNumericStr_eq_aux w hne, isNumericStrAux_two_dots w.data hcount false]
    decide
  · intro w c hmem hd hdot
    have hne : w.data ≠ [] := List.ne_nil_of_mem hmem
    rw [isNumericStr_eq_aux w hne, isNumericStrAux_bad_char w.data c hmem hd hdot false]
    decide
  · rfl
  · intro w
    by_cases hne : w.data = []
    · cases w with
      | mk data =>
        subst hne
        simp [isNumericStr]
    · rw [isNumericStr_eq_aux w hne]
      exact isNumericStrAux_le_two w.data false
  · intro st hq hf
    have hback : strBack "true" = 'e' := by rfl
    constructor
    · simp [parseStep, hq, hf, hback]
    · simp [parseStep, hq, hf, hback]

/-- Witness for C3: concrete classifications — `true` normalizes to
`"1"`/BoolTrue, `1.2.3` is pushed as a String token, `123` is Integer,
`1.5` is Decimal, the empty word is not numeric. -/
theorem token_classifier_five_kinds_witness :
    (parseStep idleParseState "true").commandResult.tokens =
      [{ str := "1", type := DEUS_VARTYPE_BOOL_TRUE }] ∧
    (parseStep idleParseState "false").commandResult.tokens =
      [{ str := "0", type := DEUS_VARTYPE_BOOL_FALSE }] ∧
    (parseStep idleParseState "1.2.3").commandResult.tokens =
      [{ str := "1.2.3", type := isNumericStr "1.2.3" }] ∧
    isNumericStr "123" = DEUS_VARTYPE_INT ∧
    isNumericStr "1.5" = DEUS_VARTYPE_DEC ∧
    isNumericStr "1.2.3" = DEUS_VARTYPE_STRING ∧
    isNumericStr "1a2" = DEUS_VARTYPE_STRING ∧
    isNumericStr "" = DEUS_VARTYPE_STRING ∧
    isNumericStr "1.5" ≤ 2 ∧
    (parseStep quotingParseState "true").commandResult.tokens = [] :=
  ⟨token_classifier_five_kinds.1 idleParseState rfl rfl,
   token_classifier_five_kinds.2.1 idleParseState rfl rfl,
   token_classifier_five_kinds.2.2.1 idleParseState "1.2.3" rfl rfl
     (by decide) (by decide) (by decide) (by decide),
   token_classifier_five_kinds.2.2.2.1 "123" (by decide) (by decide),
   token_classifier_five_kinds.2.2.2.2.1 "1.5" (by decide) (by decide),
   token_classifier_five_kinds.2.2.2.2.2.1 "1.2.3" (by decide),
   token_classifier_five_kinds.2.2.2.2.2.2.1 "1a2" 'a' (by decide) (by decide) (by decide),
   token_classifier_five_kinds.2.2.2.2.2.2.2.1,
   token_classifier_five_kinds.2.2.2.2.2.2.2.2.1 "1.5",
   (token_classifier_five_kinds.2.2.2.2.2.2.2.2.2 quotingParseState rfl rfl).1⟩

/-- C1 (refuting evidence): the tokenizer does NOT stop at 16 tokens.
On the 35-byte line `t a b c d e f g h i j k l m n o p q` (17
arguments) it produces all 17 tokens, because the cap
`if (commandResult.argc >= 16) break;` tests `argc`, which is assigned
from `tokens.size()` only after the loop and is 0 throughout it. -/
theorem parseCommand_no_sixteen_token_cap :
    parseCommand "t a b c d e f g h i j k l m n o p q" freshCommand =
      .ok { target := "t", argc := 17,
            tokens := [
              { str := "a", type := 0 }, { str := "b", type := 0 }, { str := "c", type := 0 },
              { str := "d", type := 0 }, { str := "e", type := 0 }, { str := "f", type := 0 },
              { str := "g", type := 0 }, { str := "h", type := 0 }, { str := "i", type := 0 },
              { str := "j", type := 0 }, { str := "k", type := 0 }, { str := "l", type := 0 },
              { str := "m", type := 0 }, { str := "n", type := 0 }, { str := "o", type := 0 },
              { str := "p", type := 0 }, { str := "q", type := 0 }],
            returnStr := "" } := by
  rfl

/-- C4: tokenizing `set 'hello world'` yields a command whose token
list is the single String token with text `hello world` — both quote
characters stripped, the inner space preserved. -/
theorem parseCommand_quoted_multiword_single_token :
    parseCommand "set 'hello world'" freshCommand =
      .ok { target := "set", argc := 1,
            tokens := [{ str := "hello world", type := DEUS_VARTYPE_STRING }],
            returnStr := "" } := by
  rfl

/-- C9 (refuting evidence for the unknown-name path): for a registered
name `getHelp` returns the description supplied at registration, but
for a name not present it reaches `return nullptr;` — constructing a
`std::string` from a null `char*`, which is undefined behavior, not a
well-defined empty result (modelled here as the `none` outcome). -/
theorem getHelp_unknown_reaches_null_return :
    getHelp mgrWritable "x" = some "A writable string" ∧
    getHelp mgrWritable "nope" = none ∧
    getHelp emptyManagerString "nope" = none :=
  ⟨rfl, rfl, rfl⟩

/-- C10 (refuting evidence): on the input `x 'abc'` the piece `'abc'`
is treated as opening a quote (a closing quote is only recognized when
already in quote-parsing state), the loop ends with
`isStringParsing == true`, and the end-of-loop
`assert(isStringParsing == false)` fails — the assertion does fire. -/
theorem parseCommand_unterminated_quote_assert_fires :
    parseCommand "x 'abc'" freshCommand =
      .error (.assertionFailure "isStringParsing == false") := by
  rfl

/-- C5: `parseCommand` fails with the InputTooLarge exception exactly
when the raw input line, before trimming, is at least 256 bytes long —
for every initial command state, so the rejection happens before any
token is produced; and `runCommandAs` (hence `runCommand`) then
propagates that error with the manager state untouched. -/
theorem parseCommand_inputTooLarge_iff (inputCmd : String) (cmd0 : DeusCommandType) :
    (parseCommand inputCmd cmd0 =
        .error (.exception "Input command buffer is too large, cannot parse.") ↔
      256 ≤ inputCmd.length) ∧
    (∀ (V : Type) (m : IDeusConsoleManager V), 256 ≤ inputCmd.length →
      runCommandAs m inputCmd =
        (.error (.exception "Input command buffer is too large, cannot parse."), m) ∧
      runCommand m inputCmd =
        (.error (.exception "Input command buffer is too large, cannot parse."), m)) := by
  constructor
  · unfold parseCommand
    split
    · next h => simp [h]
    · next h =>
      constructor
      · intro hcontra
        dsimp only at hcontra
        split at hcontra
        · exact absurd hcontra (by simp)
        · exact absurd hcontra (by simp)
      · intro hlen
        exact absurd hlen h
  · intro V m hlen
    have hparse : parseCommand inputCmd freshCommand =
        .error (.exception "Input command buffer is too large, cannot parse.") := by
      unfold parseCommand
      rw [if_pos hlen]
    constructor
    · unfold runCommandAs
      rw [hparse]
    · unfold runCommand runCommandAs
      rw [hparse]

set_option maxRecDepth 4096 in
/-- Witness for C5: a 256-byte line of `a`s is rejected as too large
by both `parseCommand` and `runCommandAs`/`runCommand`. -/
theorem parseCommand_inputTooLarge_iff_witness :
    parseCommand (String.mk (List.replicate 256 'a')) freshCommand =
      .error (.exception "Input command buffer is too large, cannot parse.") ∧
    runCommandAs emptyManagerString (String.mk (List.replicate 256 'a')) =
      (.error (.exception "Input command buffer is too large, cannot parse."),
       emptyManagerString) :=
  ⟨(parseCommand_inputTooLarge_iff (String.mk (List.replicate 256 'a')) freshCommand).1.mpr
     (by decide),
   ((parseCommand_inputTooLarge_iff (String.mk (List.replicate 256 'a')) freshCommand).2
     String emptyManagerString (by decide)).1⟩

/-- C2: for every variable registered with the ReadOnly flag, running a
one-argument write command against it raises the ReadOnlyWrite error
(`Cannot write to a constant variable`), and the manager state — in
particular the variable's stored value — is unchanged afterward. -/
theorem runCommandAs_readonly_write_rejected
    (V : Type) (m : IDeusConsoleManager V) (name s : String)
    (var : DeusConsoleVariable V) (cmd : DeusCommandType)
    (hparse : parseCommand s freshCommand = .ok cmd)
    (htarget : cmd.target = name)
    (hargc : cmd.argc = 1)
    (hlookup : List.lookup name m.variableTable = some var)
    (hro : var.flags &&& DEUS_CVAR_READONLY ≠ 0) :
    runCommandAs m s = (.error (.exception "Cannot write to a constant variable"), m) := by
  unfold runCommandAs
  rw [hparse]
  unfold dispatchCommand
  dsimp only
  rw [htarget, hlookup]
  simp [hargc, hro]

/-- Witness for C2: writing `name b` against the read-only `name`
variable raises the ReadOnlyWrite exception and leaves the manager
unchanged. -/
theorem runCommandAs_readonly_write_rejected_witness :
    runCommandAs mgrReadOnly "name b" =
      (.error (.exception "Cannot write to a constant variable"), mgrReadOnly) :=
  runCommandAs_readonly_write_rejected String mgrReadOnly "name" "name b" varReadOnly
    { target := "name", argc := 1, tokens := [{ str := "b", type := 0 }], returnStr := "" }
    rfl rfl rfl rfl (by decide)

/-- C6: when the target names a registered variable and the command
carries two or more tokens, dispatch raises TooManyArguments when no
method of the same name exists; when a method of that name does exist,
the method is invoked instead (shadowing the variable's multi-argument
case) and no error is raised. -/
theorem dispatch_tooManyArguments_unless_method
    (V : Type) (m : IDeusConsoleManager V) (name s : String)
    (var : DeusConsoleVariable V) (cmd : DeusCommandType)
    (hparse : parseCommand s freshCommand = .ok cmd)
    (htarget : cmd.target = name)
    (hargc : 2 ≤ cmd.argc)
    (hlookup : List.lookup name m.variableTable = some var) :
    (List.lookup name m.methodTable = none →
      runCommandAs m s = (.error (.exception "Too many arguments"), m)) ∧
    (∀ func, List.lookup name m.methodTable = some func →
      runCommandAs m s =
        (.ok { value := none, command := func cmd, hookCalls := [] }, m)) := by
  have h0 : (cmd.argc == 0) = false := by
    simp only [beq_eq_false_iff_ne, ne_eq]
    omega
  have h1 : (cmd.argc == 1) = false := by
    simp only [beq_eq_false_iff_ne, ne_eq]
    omega
  constructor
  · intro hm
    unfold runCommandAs
    rw [hparse]
    unfold dispatchCommand
    dsimp only
    rw [htarget, hlookup]
    simp [methodExists, h0, h1, hm]
  · intro func hm
    unfold runCommandAs
    rw [hparse]
    unfold dispatchCommand
    dsimp only
    rw [htarget, hlookup]
    simp [methodExists, h0, h1, hm]

/-- Witness for C6: `x 1 2` against a manager where `x` is only a
variable raises TooManyArguments; the same input against a manager
where `x` is also a method invokes the method with no error. -/
theorem dispatch_tooManyArguments_unless_method_witness :
    runCommandAs mgrWritable "x 1 2" =
      (.error (.exception "Too many arguments"), mgrWritable) ∧
    runCommandAs mgrVarAndMethod "x 1 2" =
      (.ok { value := none,
             command := methodReturned
               { target := "x", argc := 2,
                 tokens := [{ str := "1", type := 1 }, { str := "2", type := 1 }],
                 returnStr := "" },
             hookCalls := [] },
       mgrVarAndMethod) :=
  ⟨(dispatch_tooManyArguments_unless_method String mgrWritable "x" "x 1 2" varWritable
      { target := "x", argc := 2,
        tokens := [{ str := "1", type := 1 }, { str := "2", type := 1 }],
        returnStr := "" }
      rfl rfl (by decide) rfl).1 rfl,
   (dispatch_tooManyArguments_unless_method String mgrVarAndMethod "x" "x 1 2" varWritable
      { target := "x", argc := 2,
        tokens := [{ str := "1", type := 1 }, { str := "2", type := 1 }],
        returnStr := "" }
      rfl rfl (by decide) rfl).2 methodReturned rfl⟩

/-- C7: for a one-token command on a registered non-ReadOnly variable,
the write is dispatched by the token's kind — String to the generic
write, Integer to writeFromIntegerText, Decimal to
writeFromDecimalText, BoolTrue/BoolFalse to writeFromIntegerText with
the already-normalized text — then the onUpdate hook, if bound, is
invoked with the new value, and the call returns the post-write value,
with the variable's stored value updated accordingly. -/
theorem dispatch_single_token_write
    (V : Type) (m : IDeusConsoleManager V) (name s : String)
    (var : DeusConsoleVariable V) (cmd : DeusCommandType) (token : DeusCommandToken)
    (fw fi fd : String → V)
    (hparse : parseCommand s freshCommand = .ok cmd)
    (htarget : cmd.target = name)
    (hargc : cmd.argc = 1)
    (htokens : cmd.tokens = [token])
    (hlookup : List.lookup name m.variableTable = some var)
    (hro : var.flags &&& DEUS_CVAR_READONLY = 0)
    (hw : var.write = some fw)
    (hi : var.writeIntFromBuffer = some fi)
    (hd : var.writeDecimalFromBuffer = some fd)
    (htype : token.type ≤ DEUS_VARTYPE_BOOL_TRUE) :
    runCommandAs m s =
      (.ok { value := some (if token.type == DEUS_VARTYPE_STRING then fw token.str
                            else if token.type == DEUS_VARTYPE_DEC then fd token.str
                            else fi token.str)
             command := cmd
             hookCalls :=
               if var.onUpdate then
                 [if token.type == DEUS_VARTYPE_STRING then fw token.str
                  else if token.type == DEUS_VARTYPE_DEC then fd token.str
                  else fi token.str]
               else [] },
       { m with variableTable :=
          (setVarValue m.variableTable name
            (if token.type == DEUS_VARTYPE_STRING then fw token.str
             else if token.type == DEUS_VARTYPE_DEC then fd token.str
             else fi token.str)) }) := by
  unfold runCommandAs
  rw [hparse]
  unfold dispatchCommand
  dsimp only
  rw [htarget, hlookup, htokens]
  obtain ⟨tstr, ttype⟩ := token
  simp only [DEUS_CVAR_READONLY] at hro
  simp only [DEUS_VARTYPE_BOOL_TRUE] at htype
  interval_cases ttype <;>
    simp [hargc, hro, hw, hi, hd, DEUS_CVAR_READONLY, DEUS_VARTYPE_STRING,
      DEUS_VARTYPE_INT, DEUS_VARTYPE_DEC, DEUS_VARTYPE_BOOL_FALSE, DEUS_VARTYPE_BOOL_TRUE]

/-- Witness for C7: `x hello` on the writable string variable `x`
routes the String-kind token to the generic write, fires the bound
onUpdate hook with the new value `hello`, returns the post-write
value, and stores it. -/
theorem dispatch_single_token_write_witness :
    runCommandAs mgrWritable "x hello" =
      (.ok { value := some "hello",
             command := { target := "x", argc := 1,
                          tokens := [{ str := "hello", type := 0 }], returnStr := "" },
             hookCalls := ["hello"] },
       { variableTable :=
          [("x", { flags := DEUS_CVAR_DEFAULT, value := "hello", onUpdate := true,
                   toString := tconsoleToStringStdString,
                   write := some bindWriteMethodsStdString.write,
                   writeIntFromBuffer := some bindWriteMethodsStdString.writeIntFromBuffer,
                   writeDecimalFromBuffer := some bindWriteMethodsStdString.writeDecimalFromBuffer })],
         methodTable := [],
         helpTable := [("x", "A writable string")] }) :=
  dispatch_single_token_write String mgrWritable "x" "x hello" varWritable
    { target := "x", argc := 1, tokens := [{ str := "hello", type := 0 }], returnStr := "" }
    { str := "hello", type := 0 }
    bindWriteMethodsStdString.write
    bindWriteMethodsStdString.writeIntFromBuffer
    bindWriteMethodsStdString.writeDecimalFromBuffer
    rfl rfl rfl rfl rfl (by decide) rfl rfl rfl (by decide)

/-- C8: registration is first-wins and no-op on repeat — registering a
method or variable under a name already present in the corresponding
table leaves the manager (both that table and the help table)
completely unchanged, and registering a variable with the Unregistered
flag set never inserts anything. -/
theorem registration_first_wins
    (V : Type) (m : IDeusConsoleManager V) (name description : String)
    (func : DeusCommandType → DeusCommandType) (value : V) (flags : Nat)
    (onUpdate : Bool) (toStringHelper : V → String)
    (writeMethods : DeusWriteMethods V) :
    ((List.lookup name m.methodTable).isSome →
      registerMethod m name func description = m) ∧
    ((List.lookup name m.variableTable).isSome →
      registerCVar m name value description flags onUpdate toStringHelper writeMethods = m) ∧
    (flags &&& DEUS_CVAR_UNREGISTERED ≠ 0 →
      registerCVar m name value description flags onUpdate toStringHelper writeMethods = m) := by
  refine ⟨?_, ?_, ?_⟩
  · intro h
    unfold registerMethod
    cases hl : List.lookup name m.methodTable with
    | none => rw [hl] at h; simp at h
    | some f => simp
  · intro h
    unfold registerCVar
    by_cases hu : flags &&& DEUS_CVAR_UNREGISTERED ≠ 0
    · simp [hu]
    · simp only [ne_eq, not_not] at hu
      cases hl : List.lookup name m.variableTable with
      | none => rw [hl] at h; simp at h
      | some v => simp [hu]
  · intro h
    unfold registerCVar
    simp [h]

/-- Witness for C8: re-registering the method `x` (already a method in
`mgrVarAndMethod`), re-registering the variable `x` (already a
variable in `mgrWritable`), and registering with the Unregistered flag
all leave the manager unchanged. -/
theorem registration_first_wins_witness :
    registerMethod mgrVarAndMethod "x" (fun cmd => cmd) "second registration" =
      mgrVarAndMethod ∧
    registerCVar mgrWritable "x" "other" "second registration" DEUS_CVAR_DEFAULT false
      tconsoleToStringStdString bindWriteMethodsStdString = mgrWritable ∧
    registerCVar emptyManagerString "u" "v" "unregistered" DEUS_CVAR_UNREGISTERED false
      tconsoleToStringStdString bindWriteMethodsStdString = emptyManagerString :=
  ⟨(registration_first_wins String mgrVarAndMethod "x" "second registration"
      (fun cmd => cmd) "other" DEUS_CVAR_DEFAULT false tconsoleToStringStdString
      bindWriteMethodsStdString).1 rfl,
   (registration_first_wins String mgrWritable "x" "second registration"
      (fun cmd => cmd) "other" DEUS_CVAR_DEFAULT false tconsoleToStringStdString
      bindWriteMethodsStdString).2.1 rfl,
   (registration_first_wins String emptyManagerString "u" "unregistered"
      (fun cmd => cmd) "v" DEUS_CVAR_UNREGISTERED false tconsoleToStringStdString
      bindWriteMethodsStdString).2.2 (by decide)⟩
